/-
  Verification of the muscan music-catalogue tool (src/main.py) against its
  natural-language specification.

  The Python source is shallowly embedded: the pure computations (extension
  splitting, year parsing, identity keys, the anti-join queries) become Lean
  functions on the same data, and the effectful parts (directory walk,
  hashing, tag extraction, database writes, file copies) become explicit
  state passing over a `Store` value and per-file environment descriptors.
-/
import Mathlib

namespace Muscan

/-! ## Data model

Mirrors the `musician.file_data` and `musician.scans` tables created in
`init_db` (src/main.py lines 26-62).  The SQL `REAL` duration column is
carried as an exact rational payload; nothing in the program computes with
it.  The `SERIAL` id columns are omitted: they are never read except as the
non-NULL marker in the `LEFT JOIN ... dest.id IS NULL` anti-join, which the
embedding renders directly as "no matching destination row". -/

structure FileRecord where
  file_name : String
  full_path : String
  extension : String
  song_title : Option String
  album_name : Option String
  album_artist : Option String
  genre : Option String
  year : Option Int
  duration : Option Rat
  taggable : Bool
  scan_name : String
  sha256_hash : Option String
  deriving Repr, DecidableEq

structure ScanSession where
  scan_name : String
  start_time : Nat
  end_time : Option Nat
  num_files : Option Nat
  num_taggable : Option Nat
  num_errors : Option Nat
  deriving Repr, DecidableEq

/-- The Catalog Store: the rows of the two tables, in insertion order. -/
structure Store where
  scans : List ScanSession
  file_data : List FileRecord
  deriving Repr, DecidableEq

/-! ## String helpers embedding the Python expressions -/

/-- Python `s.endswith(suffix)`: the suffix's characters close the string. -/
def strEndsWith (s suffix : String) : Bool :=
  List.isSuffixOf suffix.toList s.toList

/-- `os.path.join(dirpath, filename)` (src/main.py line 101) for the shapes
`os.walk` produces: an absolute-path second argument is not modelled because
`os.walk` never yields one as a filename. -/
def pathJoin (dirpath filename : String) : String :=
  if dirpath = "" then filename
  else if strEndsWith dirpath "/" then dirpath ++ filename
  else dirpath ++ "/" ++ filename

/-- `os.path.splitext(filename)[1][1:]` (src/main.py line 102): the characters
after the last dot of the name, provided some character strictly before that
dot is not itself a dot (Python ignores a purely-leading run of dots, so
`.DS_Store` has extension `""`); otherwise `""`. -/
def splitextExtension (name : String) : String :=
  let rev := name.toList.reverse
  let afterRev := rev.takeWhile (fun c => c ≠ '.')
  match rev.dropWhile (fun c => c ≠ '.') with
  | [] => ""
  | _ :: beforeRev =>
      if beforeRev.any (fun c => c ≠ '.') then String.mk afterRev.reverse else ""

/-- `s.replace(' ', '')` (src/main.py line 118): every space removed. -/
def stripSpaces (s : String) : String :=
  String.mk (s.toList.filter (fun c => c ≠ ' '))

/-- `s.split('-')[0]` (src/main.py line 116): the prefix before the first
`'-'`; the whole string when there is none. -/
def beforeDash (s : String) : String :=
  String.mk (s.toList.takeWhile (fun c => c ≠ '-'))

/-- Python whitespace accepted (and stripped) by `int(str)`. -/
def isPyWhitespace (c : Char) : Bool :=
  c = ' ' || c = '\t' || c = '\n' || c = '\r' || c = '\x0b' || c = '\x0c'

/-- Decimal digits to a number; `none` when empty or a non-digit occurs. -/
def digitsToNat (ds : List Char) : Option Nat :=
  if ds.isEmpty then none
  else if ds.all Char.isDigit then
    some (ds.foldl (fun a c => a * 10 + (c.toNat - 48)) 0)
  else none

/-- Python `int(str)` for base 10 (src/main.py line 119): surrounding
whitespace stripped, an optional sign, then decimal digits; `none` models the
`ValueError` on anything else.  Underscore digit separators and non-ASCII
digits, which CPython also accepts, are not modelled. -/
def pyIntParse (s : String) : Option Int :=
  let cs := ((s.toList.dropWhile isPyWhitespace).reverse.dropWhile
      isPyWhitespace).reverse
  match cs with
  | [] => none
  | '+' :: ds => (digitsToNat ds).map Int.ofNat
  | '-' :: ds => (digitsToNat ds).map fun n => -(n : Int)
  | ds => (digitsToNat ds).map Int.ofNat

/-! ## Year derivation (src/main.py lines 113-121) -/

/-- The year block of `walk_and_record`: `rawYear` is `tag.year` when a tag
object is present (`none` collapses both "no tag" and `tag.year is None`; the
empty string is falsy in Python, so `if tag and tag.year:` skips it too).
`ValueError` from `int` is caught and leaves the year absent; `TypeError`
cannot occur since `split` already produced a `str`. -/
def derive_year (rawYear : Option String) : Option Int :=
  match rawYear with
  | none => none
  | some y =>
      if y = "" then none
      else
        let year_tag := beforeDash y
        if year_tag ≠ "" then pyIntParse (stripSpaces year_tag) else none

/-- Modelled from the spec's words (§4.1 step d), for comparison with the
code's `derive_year`: "taking the substring before the first `-` separator,
stripping interior whitespace, and parsing as an integer; any parse failure
or empty result yields an absent year". -/
def yearDerivationSpec (raw : String) : Option Int :=
  pyIntParse (stripSpaces (beforeDash raw))

/-! ## Scan engine (src/main.py lines 65-159)

Each file handed to the loop body by `os.walk` is described by a
`ScanInputFile`: the `(dirpath, filename)` pair plus the outcome the
environment would give for the two effectful probes.  `hashResult = none`
models `calculate_sha256` catching an `OSError` while opening/reading the
file (lines 65-74) and returning `None`; `taggable` is
`TinyTag.is_supported(full_path)`; `tagResult = none` with `taggable = true`
models `TinyTag.get` raising (a malformed tag), the one exception source of
the guarded block besides the digest read. -/

structure Tag where
  title : Option String
  album : Option String
  artist : Option String
  genre : Option String
  year : Option String
  duration : Option Rat
  deriving Repr, DecidableEq

structure ScanInputFile where
  dirpath : String
  filename : String
  hashResult : Option String
  taggable : Bool
  tagResult : Option Tag
  deriving Repr, DecidableEq

/-- The per-run mutable state of `walk_and_record`: the records inserted so
far (in insertion order), the three counters, and the list of paths handed to
`calculate_sha256` (hashing happens before tagging, so a tag failure still
hashes, while an excluded file is never hashed). -/
structure ScanState where
  records : List FileRecord
  process_count : Nat
  taggable_count : Nat
  error_count : Nat
  hashed : List String
  deriving Repr, DecidableEq

/-- The exclusion test of src/main.py line 103:
`extension in {'plist', 'jpg'} or full_path.endswith('.DS_Store')`. -/
def isExcluded (full_path extension : String) : Bool :=
  (extension == "plist" || extension == "jpg") ||
    strEndsWith full_path ".DS_Store"

/-- `TinyTag.get` raises for this file: it is supported but extraction
fails. -/
def tagRaises (f : ScanInputFile) : Bool :=
  f.taggable && f.tagResult.isNone

/-- The tag object in scope at the INSERT (line 107/110): `None` unless the
file is taggable and extraction succeeded. -/
def tagOf (f : ScanInputFile) : Option Tag :=
  if f.taggable then f.tagResult else none

/-- The row inserted for a successfully processed file
(src/main.py lines 123-139). -/
def recordOf (scan_name : String) (f : ScanInputFile) : FileRecord :=
  let tag := tagOf f
  { file_name := f.filename
    full_path := pathJoin f.dirpath f.filename
    extension := splitextExtension f.filename
    song_title := tag.bind Tag.title
    album_name := tag.bind Tag.album
    album_artist := tag.bind Tag.artist
    genre := tag.bind Tag.genre
    year := derive_year (tag.bind Tag.year)
    duration := tag.bind Tag.duration
    taggable := f.taggable
    scan_name := scan_name
    sha256_hash := f.hashResult }

/-- One iteration of the `for filename in filenames` body
(src/main.py lines 100-147).  An excluded file leaves the state untouched; a
tag-extraction exception is caught at line 145 after the hash probe and only
bumps the error counter; otherwise the record is inserted and committed and
the counters advance. -/
def stepFile (scan_name : String) (s : ScanState) (f : ScanInputFile) :
    ScanState :=
  let full_path := pathJoin f.dirpath f.filename
  let extension := splitextExtension f.filename
  if isExcluded full_path extension then s
  else if tagRaises f then
    { s with hashed := s.hashed ++ [full_path]
             error_count := s.error_count + 1 }
  else
    { s with hashed := s.hashed ++ [full_path]
             records := s.records ++ [recordOf scan_name f]
             process_count := s.process_count + 1
             taggable_count := s.taggable_count + if f.taggable then 1 else 0 }

/-- The whole traversal loop over the files `os.walk` yields, in order. -/
def processFiles (scan_name : String) (s : ScanState)
    (files : List ScanInputFile) : ScanState :=
  files.foldl (stepFile scan_name) s

/-- `SELECT scan_name FROM musician.scans WHERE scan_name = %s` followed by
`fetchone()` being truthy (src/main.py lines 81-82). -/
def scanExists (store : Store) (scan_name : String) : Bool :=
  store.scans.any fun s => s.scan_name == scan_name

/-- Result of a `walk_and_record` call: the store afterwards and whether the
duplicate-name message was printed instead of scanning. -/
structure ScanOutcome where
  store : Store
  conflict : Bool
  deriving Repr, DecidableEq

/-- `walk_and_record` (src/main.py lines 77-159).  `files` is the file list
the traversal of `path` would yield; `start_time`/`end_time` stand for the
two `datetime.now()` stamps.  On a name conflict the function returns before
any write or traversal; otherwise the session row is inserted, every file is
processed (each record committing as it goes), and the session row is updated
with the end time and final counters. -/
def walk_and_record (store : Store) (files : List ScanInputFile)
    (scan_name : String) (start_time end_time : Nat) : ScanOutcome :=
  if scanExists store scan_name then
    { store := store, conflict := true }
  else
    let store1 : Store :=
      { store with scans := store.scans ++
          [{ scan_name := scan_name, start_time := start_time,
             end_time := none, num_files := none, num_taggable := none,
             num_errors := none }] }
    let final := processFiles scan_name ⟨[], 0, 0, 0, []⟩ files
    let store2 : Store :=
      { store1 with file_data := store1.file_data ++ final.records }
    { store :=
        { store2 with scans := store2.scans.map fun sc =>
            if sc.scan_name == scan_name then
              { sc with end_time := some end_time,
                        num_files := some final.process_count,
                        num_taggable := some final.taggable_count,
                        num_errors := some final.error_count }
            else sc }
      conflict := false }

/-! ## Reconciliation engine (src/main.py lines 266-318) -/

/-- `CONCAT(COALESCE(song_title, file_name), album_name)`: PostgreSQL
`COALESCE` takes the title when non-NULL, else the file name, and `CONCAT`
renders a NULL album as the empty string. -/
def identityKey (r : FileRecord) : String :=
  (r.song_title.getD r.file_name) ++ r.album_name.getD ""

/-- The rows of the shared anti-join relation both diff queries are built on
(the `FROM ... LEFT JOIN ... ON ... WHERE origin.scan_name = %s AND dest.id
IS NULL` clause of lines 269-277 and 289-297): the origin-scan rows with no
destination-scan row of equal identity key.  `dest.id IS NULL` holds exactly
for the unmatched origin rows because `id` is a `SERIAL PRIMARY KEY` and so
never NULL on a real row; an unmatched origin row appears exactly once. -/
def diffRecords (store : Store) (origin_scan dest_scan : String) :
    List FileRecord :=
  (store.file_data.filter fun o => o.scan_name == origin_scan).filter
    fun o => !(store.file_data.any fun d =>
      d.scan_name == dest_scan && identityKey d == identityKey o)

/-- The `list_diff` query (src/main.py lines 269-279): the same relation with
`SELECT count(origin.*)`; `origin.*` is never NULL on a result row, so the
count is the number of result rows. -/
def list_diff (store : Store) (origin_scan dest_scan : String) : Nat :=
  ((store.file_data.filter fun o => o.scan_name == origin_scan).filter
    fun o => !(store.file_data.any fun d =>
      d.scan_name == dest_scan && identityKey d == identityKey o)).length

/-- The `copy_diff_files` query (src/main.py lines 289-299): the same
relation with `SELECT origin.full_path`. -/
def copy_diff_query (store : Store) (origin_scan dest_scan : String) :
    List String :=
  (((store.file_data.filter fun o => o.scan_name == origin_scan).filter
    fun o => !(store.file_data.any fun d =>
      d.scan_name == dest_scan && identityKey d == identityKey o)).map
    fun o => o.full_path)

/-- What a `copy_diff_files` run did: the paths actually handed to
`shutil.copy2` and the "not found" paths, in order, plus the two numbers of
the final `done: {copied_files} files out of {total_files} copied` line.
`copied_files` is the code's own counter, which line 313 increments whether
or not the copy happened. -/
structure CopyReport where
  copiedPaths : List String
  missingPaths : List String
  copied_files : Nat
  total_files : Nat
  deriving Repr, DecidableEq

/-- The copy loop of `copy_diff_files` (src/main.py lines 298-318).
`fsExists` is `os.path.exists` on this filesystem. -/
def copy_diff_files (store : Store) (origin_scan dest_scan : String)
    (fsExists : String → Bool) : CopyReport :=
  let results := copy_diff_query store origin_scan dest_scan
  results.foldl
    (fun rep source_path =>
      if fsExists source_path then
        { rep with copiedPaths := rep.copiedPaths ++ [source_path]
                   copied_files := rep.copied_files + 1 }
      else
        { rep with missingPaths := rep.missingPaths ++ [source_path]
                   copied_files := rep.copied_files + 1 })
    { copiedPaths := [], missingPaths := [], copied_files := 0,
      total_files := results.length }

/-! ## Helper lemmas -/

/-- Every character of a computed extension differs from `'.'`: the extension
is taken from after the last dot. -/
theorem splitextExtension_no_dot (name : String) :
    ∀ c ∈ (splitextExtension name).toList, c ≠ '.' := by
  intro c hc
  unfold splitextExtension at hc
  dsimp only at hc
  split at hc
  · simp at hc
  · split at hc
    · have hc' : c ∈ (List.takeWhile (fun c => decide (c ≠ '.'))
          name.toList.reverse).reverse := hc
      have := List.mem_takeWhile_imp (List.mem_reverse.mp hc')
      simpa using this
    · simp at hc

/-- An unmatched destination name (no `file_data` row carries it) makes the
anti-join keep every origin-scan row. -/
theorem diffRecords_no_dest (store : Store) (os ds : String)
    (h : ∀ r ∈ store.file_data, r.scan_name ≠ ds) :
    diffRecords store os ds =
      store.file_data.filter fun r => r.scan_name == os := by
  unfold diffRecords
  rw [List.filter_eq_self]
  intro a ha
  rw [Bool.not_eq_true', List.any_eq_false]
  intro d hd
  simp only [Bool.and_eq_true, beq_iff_eq, not_and]
  intro hds
  exact absurd hds (h d hd)

/-- An origin name no `file_data` row carries makes the anti-join empty. -/
theorem diffRecords_no_origin (store : Store) (os ds : String)
    (h : ∀ r ∈ store.file_data, r.scan_name ≠ os) :
    diffRecords store os ds = [] := by
  unfold diffRecords
  have : store.file_data.filter (fun o => o.scan_name == os) = [] := by
    rw [List.filter_eq_nil_iff]
    intro a ha
    simpa using h a ha
  rw [this, List.filter_nil]

/-- A duplicate scan name makes `walk_and_record` return before any write. -/
theorem walk_and_record_of_exists (store : Store)
    (files : List ScanInputFile) (name : String) (t1 t2 : Nat)
    (h : scanExists store name = true) :
    walk_and_record store files name t1 t2 =
      { store := store, conflict := true } := by
  simp [walk_and_record, h]

/-- After any `walk_and_record` run the scan name is present in the store:
a conflicting run leaves the existing session, a fresh run inserts one. -/
theorem scanExists_walk_and_record (store : Store)
    (files : List ScanInputFile) (name : String) (t1 t2 : Nat) :
    scanExists (walk_and_record store files name t1 t2).store name = true := by
  by_cases h : scanExists store name = true
  · rw [walk_and_record_of_exists store files name t1 t2 h]
    exact h
  · simp only [walk_and_record, h, if_false]
    simp [scanExists, List.any_map, List.any_append, Function.comp]

/-! ## The claims -/

/-- C5: the stored release year is the substring of the raw tag year before
the first `-`, with spaces removed, parsed as an integer; any parse failure
or empty result yields an absent year, and the four spec examples evaluate
as stated: `"2015-06-01" ↦ 2015`, `"  2015 " ↦ 2015`, `"unknown" ↦ absent`,
`"" ↦ absent`. -/
theorem year_derivation (raw : String) :
    derive_year (some raw) = yearDerivationSpec raw ∧
    derive_year (some "2015-06-01") = some 2015 ∧
    derive_year (some "  2015 ") = some 2015 ∧
    derive_year (some "unknown") = none ∧
    derive_year (some "") = none := by
  refine ⟨?_, by decide, by decide, by decide, by decide⟩
  unfold derive_year yearDerivationSpec
  by_cases h : raw = ""
  · subst h; decide
  · simp only [h, if_false]
    by_cases h2 : beforeDash raw = ""
    · rw [h2]
      simp
      decide
    · simp [h2]

/-- C9: the count-only diff and the path-list diff are two projections of
one anti-join relation, and the reported count equals the number of listed
paths. -/
theorem diff_count_matches_paths (store : Store) (os ds : String) :
    list_diff store os ds = (diffRecords store os ds).length ∧
    copy_diff_query store os ds =
      (diffRecords store os ds).map (fun r => r.full_path) ∧
    list_diff store os ds = (copy_diff_query store os ds).length := by
  refine ⟨rfl, rfl, ?_⟩
  simp [list_diff, copy_diff_query]

/-! ### Concrete stores used as claim instances -/

def c1OriginA : FileRecord :=
  { file_name := "a.mp3", full_path := "/music/a.mp3", extension := "mp3",
    song_title := some "A", album_name := some "X", album_artist := none,
    genre := none, year := none, duration := none, taggable := true,
    scan_name := "origin", sha256_hash := none }

def c1OriginB : FileRecord :=
  { file_name := "b.mp3", full_path := "/music/b.mp3", extension := "mp3",
    song_title := none, album_name := some "Y", album_artist := none,
    genre := none, year := none, duration := none, taggable := true,
    scan_name := "origin", sha256_hash := none }

def c1DestA : FileRecord :=
  { file_name := "a2.mp3", full_path := "/backup/a2.mp3", extension := "mp3",
    song_title := some "A", album_name := some "X", album_artist := none,
    genre := none, year := none, duration := none, taggable := true,
    scan_name := "dest", sha256_hash := none }

def c1Store : Store := { scans := [], file_data := [c1OriginA, c1OriginB, c1DestA] }

/-- C1: the diff holds exactly the origin-scan records whose identity key
(title if present else file name, concatenated with the album name, an
absent album contributing the empty string) matches no destination-scan
record; on the spec's instance the diff is exactly the second origin record
(key `b.mp3Y`). -/
theorem computeDiff_antijoin :
    (∀ (store : Store) (os ds : String) (r : FileRecord),
        r ∈ diffRecords store os ds ↔
          r ∈ store.file_data ∧ r.scan_name = os ∧
            ∀ d ∈ store.file_data, d.scan_name = ds →
              identityKey d ≠ identityKey r) ∧
    diffRecords c1Store "origin" "dest" = [c1OriginB] := by
  constructor
  · intro store os ds r
    simp only [diffRecords, List.mem_filter, Bool.not_eq_true',
      List.any_eq_false, Bool.and_eq_true, beq_iff_eq, not_and, ne_eq,
      and_assoc]
  · decide

/-- C8: an unmatched (empty) destination scan leaves the whole origin scan
in the diff, and a destination covering every origin identity key empties
it. -/
theorem diff_empty_and_matched_dest (store : Store) (os ds : String) :
    ((∀ r ∈ store.file_data, r.scan_name ≠ ds) →
      diffRecords store os ds =
        store.file_data.filter fun r => r.scan_name == os) ∧
    ((∀ r ∈ store.file_data, r.scan_name = os →
        ∃ d ∈ store.file_data, d.scan_name = ds ∧
          identityKey d = identityKey r) →
      diffRecords store os ds = []) := by
  constructor
  · exact diffRecords_no_dest store os ds
  · intro h
    unfold diffRecords
    rw [List.filter_eq_nil_iff]
    intro a ha
    rw [List.mem_filter, beq_iff_eq] at ha
    obtain ⟨d, hd, hds, hkey⟩ := h a ha.1 ha.2
    have hany : (store.file_data.any fun d2 =>
        d2.scan_name == ds && identityKey d2 == identityKey a) = true := by
      rw [List.any_eq_true]
      exact ⟨d, hd, by simp [hds, hkey]⟩
    simp [hany]

def c8Origin : FileRecord :=
  { file_name := "t.mp3", full_path := "/m/t.mp3", extension := "mp3",
    song_title := some "T", album_name := some "AL", album_artist := none,
    genre := none, year := none, duration := none, taggable := true,
    scan_name := "o", sha256_hash := none }

def c8Dest : FileRecord :=
  { file_name := "other.mp3", full_path := "/b/other.mp3",
    extension := "mp3", song_title := some "T", album_name := some "AL",
    album_artist := none, genre := none, year := none, duration := none,
    taggable := true, scan_name := "d", sha256_hash := none }

def c8Store : Store := { scans := [], file_data := [c8Origin, c8Dest] }

theorem diff_empty_and_matched_dest_witness :
    diffRecords c8Store "o" "nosuch" =
      c8Store.file_data.filter (fun r => r.scan_name == "o") ∧
    diffRecords c8Store "o" "d" = [] :=
  ⟨(diff_empty_and_matched_dest c8Store "o" "nosuch").1 (by decide),
   (diff_empty_and_matched_dest c8Store "o" "d").2 (by decide)⟩

/-- C10: neither diff operation checks that the named scans exist — an
origin name with no records yields count 0 and a copy run that touches
nothing, and a destination name with no records behaves exactly like an
empty destination scan. -/
theorem diff_unknown_scan_names (store : Store) (os ds : String)
    (fsExists : String → Bool)
    (ho : ∀ r ∈ store.file_data, r.scan_name ≠ os) :
    list_diff store os ds = 0 ∧
    copy_diff_files store os ds fsExists =
      { copiedPaths := [], missingPaths := [], copied_files := 0,
        total_files := 0 } ∧
    ∀ ds', (∀ r ∈ store.file_data, r.scan_name ≠ ds') →
      ∀ os', diffRecords store os' ds' =
        store.file_data.filter fun r => r.scan_name == os' := by
  have hempty : diffRecords store os ds = [] :=
    diffRecords_no_origin store os ds ho
  have hq : copy_diff_query store os ds = [] := by
    have hmap : copy_diff_query store os ds =
        (diffRecords store os ds).map (fun r => r.full_path) := rfl
    rw [hmap, hempty, List.map_nil]
  refine ⟨?_, ?_, ?_⟩
  · have hcount : list_diff store os ds = (diffRecords store os ds).length :=
      rfl
    rw [hcount, hempty, List.length_nil]
  · simp [copy_diff_files, hq]
  · intro ds' h os'
    exact diffRecords_no_dest store os' ds' h

def c10Rec : FileRecord :=
  { file_name := "z.mp3", full_path := "/m/z.mp3", extension := "mp3",
    song_title := none, album_name := none, album_artist := none,
    genre := none, year := none, duration := none, taggable := false,
    scan_name := "x", sha256_hash := none }

def c10Store : Store := { scans := [], file_data := [c10Rec] }

theorem diff_unknown_scan_names_witness :
    list_diff c10Store "nope" "alsonope" = 0 ∧
    copy_diff_files c10Store "nope" "alsonope" (fun _ => true) =
      { copiedPaths := [], missingPaths := [], copied_files := 0,
        total_files := 0 } :=
  ⟨(diff_unknown_scan_names c10Store "nope" "alsonope" (fun _ => true)
      (by decide)).1,
   (diff_unknown_scan_names c10Store "nope" "alsonope" (fun _ => true)
      (by decide)).2.1⟩

/-- C6: a file whose computed extension is in the exclude set or whose full
path ends in `.DS_Store` leaves the scan state untouched — not counted, not
hashed, not recorded — and in particular any `thumbs.jpg`, any `x.plist`
and any `.DS_Store`-suffixed path are skipped whatever their content. -/
theorem exclusion_skips_files (sn : String) (s : ScanState)
    (f : ScanInputFile)
    (h : isExcluded (pathJoin f.dirpath f.filename)
        (splitextExtension f.filename) = true) :
    stepFile sn s f = s ∧
    (∀ g : ScanInputFile, g.filename = "thumbs.jpg" → stepFile sn s g = s) ∧
    (∀ g : ScanInputFile, g.filename = "x.plist" → stepFile sn s g = s) ∧
    ∀ g : ScanInputFile,
      strEndsWith (pathJoin g.dirpath g.filename) ".DS_Store" = true →
      stepFile sn s g = s := by
  refine ⟨?_, ?_, ?_, ?_⟩
  · simp [stepFile, h]
  · intro g hg
    have he : splitextExtension g.filename = "jpg" := by rw [hg]; decide
    simp [stepFile, isExcluded, he]
  · intro g hg
    have he : splitextExtension g.filename = "plist" := by rw [hg]; decide
    simp [stepFile, isExcluded, he]
  · intro g hg
    simp [stepFile, isExcluded, hg]

def c6File : ScanInputFile :=
  { dirpath := "/music", filename := "thumbs.jpg", hashResult := some "h",
    taggable := false, tagResult := none }

theorem exclusion_skips_files_witness :
    stepFile "s" ⟨[], 0, 0, 0, []⟩ c6File = ⟨[], 0, 0, 0, []⟩ :=
  (exclusion_skips_files "s" ⟨[], 0, 0, 0, []⟩ c6File (by decide)).1

def c7File : ScanInputFile :=
  { dirpath := "/music", filename := "A.MP3", hashResult := some "h",
    taggable := true,
    tagResult := some { title := none, album := none, artist := none,
                        genre := none, year := none, duration := none } }

/-- C7 counterexample: scanning a file named `A.MP3` stores extension `MP3`,
not the lower-cased `mp3` the claim asserts — line 102 takes
`os.path.splitext(filename)[1][1:]` without any `.lower()`. -/
theorem extension_not_lowercased :
    (stepFile "s" ⟨[], 0, 0, 0, []⟩ c7File).records =
      [recordOf "s" c7File] ∧
    (recordOf "s" c7File).extension = "MP3" ∧
    (recordOf "s" c7File).extension ≠ "mp3" := by
  refine ⟨by decide, by decide, by decide⟩

/-- C7 amended: the stored extension is the file name's extension without
the leading dot, kept exactly as written in the name (no case change); it
never contains a dot. -/
theorem extension_stored_verbatim (sn : String) (s : ScanState)
    (f : ScanInputFile)
    (hx : isExcluded (pathJoin f.dirpath f.filename)
        (splitextExtension f.filename) = false)
    (ht : tagRaises f = false) :
    (stepFile sn s f).records = s.records ++ [recordOf sn f] ∧
    (recordOf sn f).extension = splitextExtension f.filename ∧
    ∀ c ∈ ((recordOf sn f).extension).toList, c ≠ '.' := by
  refine ⟨?_, rfl, ?_⟩
  · simp [stepFile, hx, ht]
  · exact splitextExtension_no_dot f.filename

def c7bFile : ScanInputFile :=
  { dirpath := "/m", filename := "b.ogg", hashResult := some "h",
    taggable := false, tagResult := none }

theorem extension_stored_verbatim_witness :
    (stepFile "s" ⟨[], 0, 0, 0, []⟩ c7bFile).records =
      [] ++ [recordOf "s" c7bFile] ∧
    (recordOf "s" c7bFile).extension = splitextExtension "b.ogg" :=
  ⟨(extension_stored_verbatim "s" ⟨[], 0, 0, 0, []⟩ c7bFile (by decide)
      (by decide)).1,
   (extension_stored_verbatim "s" ⟨[], 0, 0, 0, []⟩ c7bFile (by decide)
      (by decide)).2.1⟩

/-- C4: a non-excluded file whose tag extraction raises is not recorded and
only bumps the error counter (besides having been hashed first, as the code
hashes before tagging), while a file whose only failure is the digest read
is recorded with an absent digest and counted as processed, not as an
error; in both cases the loop goes on with the rest of the files. -/
theorem scan_fault_isolation (sn : String) (s : ScanState)
    (f : ScanInputFile) (rest : List ScanInputFile)
    (hx : isExcluded (pathJoin f.dirpath f.filename)
        (splitextExtension f.filename) = false) :
    (tagRaises f = true →
      stepFile sn s f =
        { s with hashed := s.hashed ++ [pathJoin f.dirpath f.filename],
                 error_count := s.error_count + 1 } ∧
      processFiles sn s (f :: rest) =
        processFiles sn (stepFile sn s f) rest) ∧
    (f.hashResult = none → tagRaises f = false →
      (stepFile sn s f).records = s.records ++ [recordOf sn f] ∧
      (recordOf sn f).sha256_hash = none ∧
      (stepFile sn s f).process_count = s.process_count + 1 ∧
      (stepFile sn s f).error_count = s.error_count ∧
      processFiles sn s (f :: rest) =
        processFiles sn (stepFile sn s f) rest) := by
  constructor
  · intro hr
    refine ⟨?_, rfl⟩
    simp [stepFile, hx, hr]
  · intro hh hr
    refine ⟨?_, hh, ?_, ?_, rfl⟩
    · simp [stepFile, hx, hr]
    · simp [stepFile, hx, hr]
    · simp [stepFile, hx, hr]

def c4ErrFile : ScanInputFile :=
  { dirpath := "/m", filename := "bad.mp3", hashResult := some "h",
    taggable := true, tagResult := none }

def c4NoHashFile : ScanInputFile :=
  { dirpath := "/m", filename := "locked.mp3", hashResult := none,
    taggable := false, tagResult := none }

theorem scan_fault_isolation_witness :
    (stepFile "s" ⟨[], 0, 0, 0, []⟩ c4ErrFile).error_count = 1 ∧
    (stepFile "s" ⟨[], 0, 0, 0, []⟩ c4ErrFile).records = [] ∧
    (stepFile "s" ⟨[], 0, 0, 0, []⟩ c4NoHashFile).records =
      [recordOf "s" c4NoHashFile] ∧
    (recordOf "s" c4NoHashFile).sha256_hash = none := by
  have h1 := scan_fault_isolation "s" ⟨[], 0, 0, 0, []⟩ c4ErrFile []
    (by decide)
  have h2 := scan_fault_isolation "s" ⟨[], 0, 0, 0, []⟩ c4NoHashFile []
    (by decide)
  obtain ⟨hstep, -⟩ := h1.1 (by decide)
  have hrec := h2.2 (by decide) (by decide)
  refine ⟨?_, ?_, ?_, hrec.2.1⟩
  · simp [hstep]
  · simp [hstep]
  · simpa using hrec.1

/-- C3: starting a scan under a name already present in the store returns at
the duplicate check, for every root (file list): no session row, no file
row, no traversal, only the conflict message; and a second invocation after
any first one finds the name present and leaves the store unchanged. -/
theorem startScan_duplicate_name (store : Store)
    (files files2 : List ScanInputFile) (name : String) (t1 t2 t3 t4 : Nat)
    (h : scanExists store name = true) :
    walk_and_record store files name t1 t2 =
      { store := store, conflict := true } ∧
    walk_and_record (walk_and_record store files2 name t3 t4).store
        files name t1 t2 =
      { store := (walk_and_record store files2 name t3 t4).store,
        conflict := true } :=
  ⟨walk_and_record_of_exists store files name t1 t2 h,
   walk_and_record_of_exists _ files name t1 t2
     (scanExists_walk_and_record store files2 name t3 t4)⟩

def c3Store : Store :=
  { scans := [{ scan_name := "s", start_time := 0, end_time := none,
                num_files := none, num_taggable := none,
                num_errors := none }],
    file_data := [] }

theorem startScan_duplicate_name_witness :
    walk_and_record c3Store [] "s" 1 2 =
      { store := c3Store, conflict := true } :=
  (startScan_duplicate_name c3Store [] [] "s" 1 2 3 4 (by decide)).1

def c2Rec1 : FileRecord :=
  { file_name := "m1.mp3", full_path := "/music/m1.mp3", extension := "mp3",
    song_title := some "T1", album_name := some "AL", album_artist := none,
    genre := none, year := none, duration := none, taggable := true,
    scan_name := "o", sha256_hash := none }

def c2Rec2 : FileRecord :=
  { file_name := "m2.mp3", full_path := "/music/m2.mp3", extension := "mp3",
    song_title := some "T2", album_name := some "AL", album_artist := none,
    genre := none, year := none, duration := none, taggable := true,
    scan_name := "o", sha256_hash := none }

def c2Rec3 : FileRecord :=
  { file_name := "m3.mp3", full_path := "/music/m3.mp3", extension := "mp3",
    song_title := some "T3", album_name := some "AL", album_artist := none,
    genre := none, year := none, duration := none, taggable := true,
    scan_name := "o", sha256_hash := none }

def c2Store : Store := { scans := [], file_data := [c2Rec1, c2Rec2, c2Rec3] }

def c2Fs : String → Bool := fun p => p != "/music/m2.mp3"

/-- C2 (code bug): on a three-entry diff with `/music/m2.mp3` missing from
the filesystem, the loop copies the two existing files, reports the missing
one and runs to completion — but the final summary prints `3 files out of 3
copied`, because line 313 increments `copied_files` in the missing branch
too; the spec's `2 out of 3` is what the counter's own name and message
promise. -/
theorem copy_missing_source_summary :
    copy_diff_files c2Store "o" "d" c2Fs =
      { copiedPaths := ["/music/m1.mp3", "/music/m3.mp3"],
        missingPaths := ["/music/m2.mp3"],
        copied_files := 3, total_files := 3 } ∧
    (copy_diff_files c2Store "o" "d" c2Fs).copiedPaths.length = 2 ∧
    (copy_diff_files c2Store "o" "d" c2Fs).copied_files ≠ 2 := by
  refine ⟨by decide, by decide, by decide⟩

end Muscan
